import Mathlib

/-!
Shallow embedding of the Pickflix application (src/Pickflix.py), a Streamlit
movie watchlist app backed by a SQLite database with two relations:

  users(username TEXT PRIMARY KEY, password TEXT)
  watchlist(id INTEGER PRIMARY KEY AUTOINCREMENT, username TEXT,
            movie_id INTEGER, title TEXT, year TEXT, poster_url TEXT,
            UNIQUE(username, movie_id),
            FOREIGN KEY(username) REFERENCES users(username))

The database is modelled as in-memory lists of rows plus the AUTOINCREMENT
counter.  Each store function of the Python source becomes a pure Lean
function from the database state to a result paired with the new state.
SQLite constraint semantics are embedded explicitly:
  - an INSERT raising sqlite3.IntegrityError on a PRIMARY KEY or UNIQUE
    violation is modelled by an existence check over the stored rows
    (the except branch of the source returns False);
  - Python's sqlite3 module leaves PRAGMA foreign_keys at its default OFF,
    so the declared FOREIGN KEY on watchlist.username is NOT checked at
    runtime; accordingly the embedded add_to_watchlist never consults users.
-/

/-- One row of the watchlist relation.  year and poster_url are nullable in
the source (the UI passes a possibly-empty year string and fetch_poster may
return None), so they are Option String here. -/
structure WatchRow where
  id : Nat
  username : String
  movie_id : Int
  title : String
  year : Option String
  poster_url : Option String
deriving Repr, DecidableEq

/-- The persistent database state: the users relation (username, password
pairs), the watchlist relation, and the AUTOINCREMENT counter for
watchlist.id (SQLite AUTOINCREMENT hands out 1, 2, 3, ...). -/
structure DB where
  users : List (String × String)
  watchlist : List WatchRow
  nextId : Nat
deriving Repr, DecidableEq

/-- The freshly initialised database of init_db: both tables empty, the
AUTOINCREMENT counter about to hand out 1. -/
def DB.init : DB := { users := [], watchlist := [], nextId := 1 }

/-- Does a user row with this username exist (the PRIMARY KEY check that
makes the INSERT of register_user raise IntegrityError). -/
def userExists (db : DB) (username : String) : Bool :=
  db.users.any (fun r => r.1 == username)

/-- register_user of the source: INSERT INTO users VALUES (?,?); returns
True on success, False when the INSERT raises sqlite3.IntegrityError
(username PRIMARY KEY already present).  No validation of the username is
performed. -/
def register_user (db : DB) (username password : String) : Bool × DB :=
  if userExists db username then
    (false, db)
  else
    (true, { db with users := db.users ++ [(username, password)] })

/-- authenticate_user of the source: SELECT * FROM users WHERE username=?
AND password=?; returns whether fetchone() found a row. -/
def authenticate_user (db : DB) (username password : String) : Bool :=
  db.users.any (fun r => r.1 == username && r.2 == password)

/-- Does a watchlist row for the (username, movie_id) pair exist (the
UNIQUE(username, movie_id) check that makes the INSERT of add_to_watchlist
raise IntegrityError). -/
def present (db : DB) (username : String) (movie_id : Int) : Bool :=
  db.watchlist.any (fun r => r.username == username && r.movie_id == movie_id)

/-- How many stored watchlist rows carry this (username, movie_id) pair. -/
def pairCount (db : DB) (username : String) (movie_id : Int) : Nat :=
  db.watchlist.countP (fun r => r.username == username && r.movie_id == movie_id)

/-- add_to_watchlist of the source: INSERT INTO watchlist (username,
movie_id, title, year, poster_url) VALUES (?,?,?,?,?); True on success,
False when the INSERT raises sqlite3.IntegrityError because the
UNIQUE(username, movie_id) constraint is violated.  The new row gets the
next AUTOINCREMENT id.  The FOREIGN KEY to users is not enforced at
runtime (sqlite3 default PRAGMA foreign_keys=OFF), so users is never
consulted. -/
def add_to_watchlist (db : DB) (username : String) (movie_id : Int)
    (title : String) (year poster_url : Option String) : Bool × DB :=
  if present db username movie_id then
    (false, db)
  else
    (true, { db with
      watchlist := db.watchlist ++
        [{ id := db.nextId, username := username, movie_id := movie_id,
           title := title, year := year, poster_url := poster_url }],
      nextId := db.nextId + 1 })

/-- remove_from_watchlist of the source: DELETE FROM watchlist WHERE
username=? AND movie_id=?; returns cursor.rowcount > 0, i.e. whether at
least one row was deleted. -/
def remove_from_watchlist (db : DB) (username : String) (movie_id : Int) :
    Bool × DB :=
  let isMatch := fun (r : WatchRow) => r.username == username && r.movie_id == movie_id
  (decide (db.watchlist.countP isMatch > 0),
   { db with watchlist := db.watchlist.filter (fun r => !(isMatch r)) })

/-- The rows of the watchlist relation belonging to one user (the WHERE
username=? clause of get_watchlist). -/
def userRows (db : DB) (username : String) : List WatchRow :=
  db.watchlist.filter (fun r => r.username == username)

/-- Descending order on the surrogate id, the ORDER BY id DESC of
get_watchlist. -/
def rowGe (a b : WatchRow) : Prop := b.id ≤ a.id

instance : DecidableRel rowGe := fun a b => Nat.decLe b.id a.id

/-- Insert a row into a list kept in descending id order. -/
def insertDescById (r : WatchRow) : List WatchRow → List WatchRow
  | [] => [r]
  | x :: xs => if x.id ≤ r.id then r :: x :: xs else x :: insertDescById r xs

/-- Sort a list of rows by descending id (the ORDER BY id DESC). -/
def sortDescById : List WatchRow → List WatchRow
  | [] => []
  | x :: xs => insertDescById x (sortDescById xs)

/-- get_watchlist of the source: SELECT movie_id, title, year, poster_url
FROM watchlist WHERE username=? ORDER BY id DESC; returns the list of
projected tuples. -/
def get_watchlist (db : DB) (username : String) :
    List (Int × String × Option String × Option String) :=
  (sortDescById (userRows db username)).map
    (fun r => (r.movie_id, r.title, r.year, r.poster_url))

/-- One store operation, for reasoning about sequences of calls against the
database. -/
inductive Op where
  | reg (u p : String)
  | add (u : String) (m : Int) (t : String) (y purl : Option String)
  | rem (u : String) (m : Int)
deriving Repr, DecidableEq

/-- The state reached after one operation. -/
def applyOp (db : DB) : Op → DB
  | .reg u p => (register_user db u p).2
  | .add u m t y purl => (add_to_watchlist db u m t y purl).2
  | .rem u m => (remove_from_watchlist db u m).2

/-- The boolean an operation reports. -/
def opResult (db : DB) : Op → Bool
  | .reg u p => (register_user db u p).1
  | .add u m t y purl => (add_to_watchlist db u m t y purl).1
  | .rem u m => (remove_from_watchlist db u m).1

/-- The state after running a sequence of operations, in order, from the
freshly initialised database. -/
def runOps (ops : List Op) : DB := ops.foldl applyOp DB.init

/-- A movie record as returned by the TMDB API, with the fields the source
actually reads.  popularity is a JSON number the source only uses as a sort
key, modelled as Int; release_date and overview may be missing from the
JSON. -/
structure Movie where
  id : Int
  title : String
  release_date : Option String
  popularity : Option Int
  overview : Option String
deriving Repr, DecidableEq

/-- The Streamlit session state fields the source reads and writes
(st.session_state).  The four cached recommendation fields are set by the
Show Recommendations handler (lines 264-267 of the source). -/
structure SessionState where
  logged_in : Bool
  username : Option String
  show_login : Bool
  show_register : Bool
  show_watchlist : Bool
  similar_movies : List Movie
  posters : List (Option String)
  names : List String
  descriptions : List String
deriving Repr, DecidableEq

/-- The Sign Out button handler of the source (lines 132-135): it sets
st.session_state.logged_in = False and st.session_state.username = None and
reruns.  No other session-state field is touched. -/
def signOut (s : SessionState) : SessionState :=
  { s with logged_in := false, username := none }

/-- The Login form handler on successful authentication (lines 167-171):
sets logged_in and username, clears show_login. -/
def signIn (s : SessionState) (u : String) : SessionState :=
  { s with logged_in := true, username := some u, show_login := false }

/-- A successful HTTP response as the source sees it: the status code and
the parsed results array (response.json().get("results", [])). -/
structure HttpResponse where
  status_code : Nat
  results : List Movie
deriving Repr, DecidableEq

/-- What requests.get(url) can do: deliver a response (any status code), or
raise a transport-level exception (ConnectionError, Timeout, ...).  The
source wraps requests.get in no try/except. -/
inductive HttpOutcome where
  | ok (resp : HttpResponse)
  | exn (e : String)
deriving Repr, DecidableEq

/-- Stable descending insertion by the popularity sort key, with a missing
popularity defaulting to 0 (the key=lambda x: x.get('popularity', 0),
reverse=True of the source; Python's sorted is stable). -/
def insertDescByPop (m : Movie) : List Movie → List Movie
  | [] => [m]
  | x :: xs =>
    if x.popularity.getD 0 ≥ m.popularity.getD 0 then x :: insertDescByPop m xs
    else m :: x :: xs

/-- sorted(results, key=lambda x: x.get('popularity', 0), reverse=True). -/
def sortByPopDesc : List Movie → List Movie
  | [] => []
  | x :: xs => insertDescByPop x (sortByPopDesc xs)

/-- search_movies of the source, as a function of what requests.get does.
There is no try/except around requests.get, so a transport exception
propagates out of search_movies (modelled as Except.error); a delivered
response with status_code 200 yields the results sorted by descending
popularity, and any other status code yields the empty list. -/
def search_movies (outcome : HttpOutcome) : Except String (List Movie) :=
  match outcome with
  | .exn e => .error e
  | .ok resp =>
    if resp.status_code == 200 then .ok (sortByPopDesc resp.results)
    else .ok []

/-! ### Helper lemmas -/

lemma insertDescById_perm (r : WatchRow) (l : List WatchRow) :
    (insertDescById r l).Perm (r :: l) := by
  induction l with
  | nil => exact List.Perm.refl _
  | cons x xs ih =>
    unfold insertDescById
    split
    · exact List.Perm.refl _
    · exact (ih.cons x).trans (List.Perm.swap r x xs)

lemma sortDescById_perm (l : List WatchRow) : (sortDescById l).Perm l := by
  induction l with
  | nil => exact List.Perm.refl _
  | cons x xs ih => exact (insertDescById_perm x (sortDescById xs)).trans (ih.cons x)

lemma mem_insertDescById {a r : WatchRow} {l : List WatchRow}
    (h : a ∈ insertDescById r l) : a = r ∨ a ∈ l := by
  have := (insertDescById_perm r l).mem_iff.mp h
  exact List.mem_cons.mp this

lemma pairwise_insertDescById {r : WatchRow} {l : List WatchRow}
    (h : l.Pairwise rowGe) : (insertDescById r l).Pairwise rowGe := by
  induction l with
  | nil => exact List.pairwise_singleton _ _
  | cons x xs ih =>
    rw [List.pairwise_cons] at h
    obtain ⟨hx, hxs⟩ := h
    unfold insertDescById
    split
    · rename_i hle
      refine List.Pairwise.cons ?_ (List.Pairwise.cons hx hxs)
      intro b hb
      rcases List.mem_cons.mp hb with rfl | hbxs
      · exact hle
      · exact Nat.le_trans (hx b hbxs) hle
    · rename_i hgt
      refine List.Pairwise.cons ?_ (ih hxs)
      intro b hb
      rcases mem_insertDescById hb with rfl | hbxs
      · exact Nat.le_of_lt (Nat.lt_of_not_le hgt)
      · exact hx b hbxs

lemma sortDescById_pairwise (l : List WatchRow) : (sortDescById l).Pairwise rowGe := by
  induction l with
  | nil => exact List.Pairwise.nil
  | cons x xs ih => exact pairwise_insertDescById ih

lemma countP_bool_comm (f g : WatchRow → Bool) (l : List WatchRow) :
    l.countP (fun r => f r && g r) = l.countP (fun r => g r && f r) := by
  induction l with
  | nil => rfl
  | cons x xs ih => simp [List.countP_cons, ih, Bool.and_comm]

/-- Counting entries with a given movie_id in the output of get_watchlist
is counting the stored rows with that (username, movie_id) pair. -/
lemma countP_get_watchlist (db : DB) (u : String) (m : Int) :
    (get_watchlist db u).countP (fun e => e.1 == m) = pairCount db u m := by
  unfold get_watchlist pairCount userRows
  rw [List.countP_map, (sortDescById_perm _).countP_eq, List.countP_filter]
  exact countP_bool_comm _ _ _

lemma pairCount_eq_zero_of_not_present {db : DB} {u : String} {m : Int}
    (h : present db u m = false) : pairCount db u m = 0 := by
  unfold present at h
  rw [List.any_eq_false] at h
  exact List.countP_eq_zero.mpr h

lemma present_eq_true_iff_pairCount_pos {db : DB} {u : String} {m : Int} :
    present db u m = true ↔ 0 < pairCount db u m := by
  unfold present pairCount
  rw [List.any_eq_true, List.countP_pos_iff]

lemma register_user_watchlist (db : DB) (u p : String) :
    (register_user db u p).2.watchlist = db.watchlist := by
  unfold register_user
  split <;> rfl

lemma remove_no_match_eq_self {db : DB} {u : String} {m : Int}
    (h : (remove_from_watchlist db u m).1 = false) :
    (remove_from_watchlist db u m).2 = db := by
  unfold remove_from_watchlist at h ⊢
  simp only [decide_eq_false_iff_not, Nat.not_lt, Nat.le_zero] at h
  have hall := List.countP_eq_zero.mp h
  have hfil : db.watchlist.filter
      (fun r => !(r.username == u && r.movie_id == m)) = db.watchlist := by
    rw [List.filter_eq_self]
    intro a ha
    have h2 := hall a ha
    cases hb : (a.username == u && a.movie_id == m)
    · simp
    · exact absurd hb h2
  show DB.mk db.users (db.watchlist.filter
      (fun r => !(r.username == u && r.movie_id == m))) db.nextId = db
  rw [hfil]

lemma add_state_present {db : DB} {u0 : String} {m0 : Int} {t : String}
    {y purl : Option String} (hp : present db u0 m0 = true) :
    add_to_watchlist db u0 m0 t y purl = (false, db) := by
  unfold add_to_watchlist
  rw [if_pos hp]

lemma add_state_absent {db : DB} {u0 : String} {m0 : Int} {t : String}
    {y purl : Option String} (hp : ¬ present db u0 m0 = true) :
    add_to_watchlist db u0 m0 t y purl
      = (true, { db with
          watchlist := db.watchlist ++
            [⟨db.nextId, u0, m0, t, y, purl⟩],
          nextId := db.nextId + 1 }) := by
  unfold add_to_watchlist
  rw [if_neg hp]

lemma pairCount_applyOp_le (db : DB) (op : Op) (u : String) (m : Int)
    (h : pairCount db u m ≤ 1) : pairCount (applyOp db op) u m ≤ 1 := by
  cases op with
  | reg u0 p0 =>
    unfold pairCount at h ⊢
    rw [show (applyOp db (Op.reg u0 p0)).watchlist
          = (register_user db u0 p0).2.watchlist from rfl,
        register_user_watchlist]
    exact h
  | add u0 m0 t y purl =>
    by_cases hp : present db u0 m0 = true
    · rw [show applyOp db (Op.add u0 m0 t y purl)
            = (add_to_watchlist db u0 m0 t y purl).2 from rfl,
          add_state_present hp]
      exact h
    · rw [show applyOp db (Op.add u0 m0 t y purl)
            = (add_to_watchlist db u0 m0 t y purl).2 from rfl,
          add_state_absent hp]
      unfold pairCount at h ⊢
      rw [show ({ db with
            watchlist := db.watchlist ++ [⟨db.nextId, u0, m0, t, y, purl⟩],
            nextId := db.nextId + 1 } : DB).watchlist
          = db.watchlist ++ [⟨db.nextId, u0, m0, t, y, purl⟩] from rfl]
      rw [List.countP_append]
      by_cases he : u0 = u ∧ m0 = m
      · obtain ⟨rfl, rfl⟩ := he
        have h0 : pairCount db u0 m0 = 0 :=
          pairCount_eq_zero_of_not_present (Bool.eq_false_iff.mpr hp)
        unfold pairCount at h0
        rw [h0]
        simp [List.countP_cons]
      · have hrow : ((u0 == u) && (m0 == m)) = false := by
          by_cases h1 : u0 = u
          · subst h1
            have h2 : m0 ≠ m := fun hm => he ⟨rfl, hm⟩
            simp [h2]
          · simp [h1]
        simpa [List.countP_cons, hrow] using h
  | rem u0 m0 =>
    unfold pairCount at h ⊢
    rw [show (applyOp db (Op.rem u0 m0)).watchlist
          = db.watchlist.filter
              (fun r => !(r.username == u0 && r.movie_id == m0)) from rfl]
    rw [List.countP_filter]
    exact Nat.le_trans
      (List.countP_mono_left (fun x _ hx => by
        rw [Bool.and_eq_true] at hx
        exact hx.1)) h

lemma absent_to_present (db : DB) (op : Op) (u : String) (m : Int)
    (h1 : present db u m = false) (h2 : present (applyOp db op) u m = true) :
    ∃ t y p, op = Op.add u m t y p := by
  cases op with
  | reg u0 p0 =>
    unfold present at h1 h2
    rw [show (applyOp db (Op.reg u0 p0)).watchlist
          = (register_user db u0 p0).2.watchlist from rfl,
        register_user_watchlist] at h2
    exact Bool.noConfusion (h1.symm.trans h2)
  | add u0 m0 t y purl =>
    by_cases hp : present db u0 m0 = true
    · rw [show applyOp db (Op.add u0 m0 t y purl)
            = (add_to_watchlist db u0 m0 t y purl).2 from rfl,
          add_state_present hp] at h2
      exact Bool.noConfusion (h1.symm.trans h2)
    · rw [show applyOp db (Op.add u0 m0 t y purl)
            = (add_to_watchlist db u0 m0 t y purl).2 from rfl,
          add_state_absent hp] at h2
      unfold present at h1 h2
      rw [show ({ db with
            watchlist := db.watchlist ++ [⟨db.nextId, u0, m0, t, y, purl⟩],
            nextId := db.nextId + 1 } : DB).watchlist
          = db.watchlist ++ [⟨db.nextId, u0, m0, t, y, purl⟩] from rfl] at h2
      rw [List.any_append, h1] at h2
      simp only [Bool.false_or, List.any_cons, List.any_nil, Bool.or_false] at h2
      simp only [Bool.and_eq_true, beq_iff_eq] at h2
      obtain ⟨rfl, rfl⟩ := h2
      exact ⟨t, y, purl, rfl⟩
  | rem u0 m0 =>
    unfold present at h1 h2
    rw [show (applyOp db (Op.rem u0 m0)).watchlist
          = db.watchlist.filter
              (fun r => !(r.username == u0 && r.movie_id == m0)) from rfl] at h2
    rw [List.any_eq_true] at h2
    obtain ⟨x, hx, hpx⟩ := h2
    rw [List.mem_filter] at hx
    rw [List.any_eq_false] at h1
    exact absurd hpx (h1 x hx.1)

lemma present_to_absent (db : DB) (op : Op) (u : String) (m : Int)
    (h1 : present db u m = true) (h2 : present (applyOp db op) u m = false) :
    op = Op.rem u m := by
  cases op with
  | reg u0 p0 =>
    unfold present at h1 h2
    rw [show (applyOp db (Op.reg u0 p0)).watchlist
          = (register_user db u0 p0).2.watchlist from rfl,
        register_user_watchlist] at h2
    exact Bool.noConfusion (h1.symm.trans h2)
  | add u0 m0 t y purl =>
    by_cases hp : present db u0 m0 = true
    · rw [show applyOp db (Op.add u0 m0 t y purl)
            = (add_to_watchlist db u0 m0 t y purl).2 from rfl,
          add_state_present hp] at h2
      exact Bool.noConfusion (h1.symm.trans h2)
    · rw [show applyOp db (Op.add u0 m0 t y purl)
            = (add_to_watchlist db u0 m0 t y purl).2 from rfl,
          add_state_absent hp] at h2
      unfold present at h1 h2
      rw [show ({ db with
            watchlist := db.watchlist ++ [⟨db.nextId, u0, m0, t, y, purl⟩],
            nextId := db.nextId + 1 } : DB).watchlist
          = db.watchlist ++ [⟨db.nextId, u0, m0, t, y, purl⟩] from rfl] at h2
      rw [List.any_append] at h2
      rw [Bool.or_eq_false_iff] at h2
      exact Bool.noConfusion (h1.symm.trans h2.1)
  | rem u0 m0 =>
    unfold present at h1 h2
    rw [show (applyOp db (Op.rem u0 m0)).watchlist
          = db.watchlist.filter
              (fun r => !(r.username == u0 && r.movie_id == m0)) from rfl] at h2
    rw [List.any_eq_true] at h1
    obtain ⟨x, hx, hpx⟩ := h1
    rw [List.any_eq_false] at h2
    by_cases hm : (x.username == u0 && x.movie_id == m0) = true
    · simp only [Bool.and_eq_true, beq_iff_eq] at hpx hm
      obtain ⟨hxu, hxm⟩ := hpx
      obtain ⟨hxu0, hxm0⟩ := hm
      rw [← hxu0, ← hxm0, hxu, hxm]
    · have hxf : x ∈ db.watchlist.filter
          (fun r => !(r.username == u0 && r.movie_id == m0)) := by
        rw [List.mem_filter]
        refine ⟨hx, ?_⟩
        cases hc : (x.username == u0 && x.movie_id == m0)
        · simp
        · exact absurd hc hm
      exact absurd hpx (h2 x hxf)

lemma opResult_false_state_eq (db : DB) (op : Op)
    (h : opResult db op = false) : applyOp db op = db := by
  cases op with
  | reg u0 p0 =>
    have h' : (register_user db u0 p0).1 = false := h
    show (register_user db u0 p0).2 = db
    unfold register_user at h' ⊢
    by_cases hu : userExists db u0 = true
    · rw [if_pos hu]
    · rw [if_neg hu] at h'
      exact Bool.noConfusion h'
  | add u0 m0 t y purl =>
    by_cases hp : present db u0 m0 = true
    · rw [show applyOp db (Op.add u0 m0 t y purl)
            = (add_to_watchlist db u0 m0 t y purl).2 from rfl,
          add_state_present hp]
    · rw [show opResult db (Op.add u0 m0 t y purl)
            = (add_to_watchlist db u0 m0 t y purl).1 from rfl,
          add_state_absent hp] at h
      exact Bool.noConfusion h
  | rem u0 m0 => exact remove_no_match_eq_self h

lemma present_after_add (db : DB) (u : String) (m : Int) (t : String)
    (y p : Option String) (h : ¬ present db u m = true) :
    present (add_to_watchlist db u m t y p).2 u m = true := by
  rw [add_state_absent h]
  unfold present
  rw [show ({ db with
        watchlist := db.watchlist ++ [⟨db.nextId, u, m, t, y, p⟩],
        nextId := db.nextId + 1 } : DB).watchlist
      = db.watchlist ++ [⟨db.nextId, u, m, t, y, p⟩] from rfl]
  rw [List.any_append]
  simp

lemma pairCount_after_add (db : DB) (u : String) (m : Int) (t : String)
    (y p : Option String) (h : ¬ present db u m = true) :
    pairCount (add_to_watchlist db u m t y p).2 u m = pairCount db u m + 1 := by
  rw [add_state_absent h]
  unfold pairCount
  rw [show ({ db with
        watchlist := db.watchlist ++ [⟨db.nextId, u, m, t, y, p⟩],
        nextId := db.nextId + 1 } : DB).watchlist
      = db.watchlist ++ [⟨db.nextId, u, m, t, y, p⟩] from rfl]
  rw [List.countP_append]
  simp [List.countP_cons]

lemma register_state_absent (db : DB) (u p : String)
    (h : ¬ userExists db u = true) :
    register_user db u p = (true, { db with users := db.users ++ [(u, p)] }) := by
  unfold register_user
  rw [if_neg h]

lemma register_state_present (db : DB) (u p : String)
    (h : userExists db u = true) :
    register_user db u p = (false, db) := by
  unfold register_user
  rw [if_pos h]

lemma remove_result_eq (db : DB) (u : String) (m : Int) :
    (remove_from_watchlist db u m).1 = decide (0 < pairCount db u m) := rfl

lemma remove_watchlist_eq (db : DB) (u : String) (m : Int) :
    (remove_from_watchlist db u m).2.watchlist
      = db.watchlist.filter (fun r => !(r.username == u && r.movie_id == m)) := rfl

lemma present_after_remove (db : DB) (u : String) (m : Int) :
    present (remove_from_watchlist db u m).2 u m = false := by
  unfold present
  rw [remove_watchlist_eq]
  rw [List.any_eq_false]
  intro x hxf
  rw [List.mem_filter] at hxf
  intro hpx
  rw [hpx] at hxf
  exact Bool.noConfusion hxf.2

lemma pairCount_runOps_le (ops : List Op) (u : String) (m : Int) :
    pairCount (runOps ops) u m ≤ 1 := by
  unfold runOps
  have hgen : ∀ db : DB, pairCount db u m ≤ 1 →
      pairCount (ops.foldl applyOp db) u m ≤ 1 := by
    induction ops with
    | nil => intro db h; exact h
    | cons op rest ih =>
      intro db h
      exact ih _ (pairCount_applyOp_le db op u m h)
  exact hgen DB.init (by simp [pairCount, DB.init])

/-! ### Claim theorems -/

/-- C1: add_to_watchlist returns true and appends exactly one new watchlist
row when no row for the (username, movie_id) pair exists; when such a row
already exists it returns false and leaves the database completely
unchanged; and adding the same pair twice returns true then false and
leaves exactly one entry with that movie_id in the user's watchlist. -/
theorem add_to_watchlist_spec (db : DB) (u : String) (m : Int) (t : String)
    (y p : Option String) :
    (present db u m = false →
        (add_to_watchlist db u m t y p).1 = true ∧
        (add_to_watchlist db u m t y p).2.watchlist
          = db.watchlist ++ [⟨db.nextId, u, m, t, y, p⟩])
  ∧ (present db u m = true →
        (add_to_watchlist db u m t y p).1 = false ∧
        (add_to_watchlist db u m t y p).2 = db)
  ∧ (present db u m = false →
        (add_to_watchlist db u m t y p).1 = true ∧
        (add_to_watchlist (add_to_watchlist db u m t y p).2 u m t y p).1 = false ∧
        ((get_watchlist
            (add_to_watchlist (add_to_watchlist db u m t y p).2 u m t y p).2
            u).countP (fun e => e.1 == m)) = 1) := by
  refine ⟨?_, ?_, ?_⟩
  · intro h
    have h' : ¬ present db u m = true := by simp [h]
    rw [add_state_absent h']
    exact ⟨rfl, rfl⟩
  · intro h
    rw [add_state_present h]
    exact ⟨rfl, rfl⟩
  · intro h
    have h' : ¬ present db u m = true := by simp [h]
    have hp1 := present_after_add db u m t y p h'
    refine ⟨by rw [add_state_absent h'], ?_, ?_⟩
    · rw [add_state_present hp1]
    · rw [add_state_present hp1]
      rw [countP_get_watchlist]
      rw [pairCount_after_add db u m t y p h',
          pairCount_eq_zero_of_not_present h]

theorem add_to_watchlist_spec_witness :
    present DB.init "alice" 550 = false ∧
    (add_to_watchlist DB.init "alice" 550 "Fight Club" none none).1 = true ∧
    (add_to_watchlist
        (add_to_watchlist DB.init "alice" 550 "Fight Club" none none).2
        "alice" 550 "Fight Club" none none).1 = false ∧
    ((get_watchlist
        (add_to_watchlist
          (add_to_watchlist DB.init "alice" 550 "Fight Club" none none).2
          "alice" 550 "Fight Club" none none).2
        "alice").countP (fun e => e.1 == 550)) = 1 :=
  ⟨rfl, (add_to_watchlist_spec DB.init "alice" 550 "Fight Club" none none).2.2 rfl⟩

/-- C2: remove_from_watchlist returns true iff a row for the (username,
movie_id) pair was present, in which case exactly the matching rows are
deleted; when no such row exists it returns false and the database is
unchanged; removing twice in a row returns true then false. -/
theorem remove_from_watchlist_spec (db : DB) (u : String) (m : Int) :
    ((remove_from_watchlist db u m).1 = true ↔ present db u m = true)
  ∧ (present db u m = true →
        (remove_from_watchlist db u m).2.watchlist
          = db.watchlist.filter (fun r => !(r.username == u && r.movie_id == m)) ∧
        present (remove_from_watchlist db u m).2 u m = false ∧
        (remove_from_watchlist (remove_from_watchlist db u m).2 u m).1 = false)
  ∧ (present db u m = false →
        (remove_from_watchlist db u m).1 = false ∧
        (remove_from_watchlist db u m).2 = db) := by
  refine ⟨?_, ?_, ?_⟩
  · rw [remove_result_eq, decide_eq_true_eq, present_eq_true_iff_pairCount_pos]
  · intro h
    refine ⟨remove_watchlist_eq db u m, present_after_remove db u m, ?_⟩
    rw [remove_result_eq,
        pairCount_eq_zero_of_not_present (present_after_remove db u m)]
    rfl
  · intro h
    have hres : (remove_from_watchlist db u m).1 = false := by
      rw [remove_result_eq, pairCount_eq_zero_of_not_present h]
      rfl
    exact ⟨hres, remove_no_match_eq_self hres⟩

theorem remove_from_watchlist_spec_witness :
    present (add_to_watchlist DB.init "bob" 7 "Seven" none none).2 "bob" 7 = true ∧
    (remove_from_watchlist
        (add_to_watchlist DB.init "bob" 7 "Seven" none none).2 "bob" 7).1 = true ∧
    (remove_from_watchlist
        (remove_from_watchlist
          (add_to_watchlist DB.init "bob" 7 "Seven" none none).2 "bob" 7).2
        "bob" 7).1 = false := by
  have h := remove_from_watchlist_spec
    (add_to_watchlist DB.init "bob" 7 "Seven" none none).2 "bob" 7
  have hp : present (add_to_watchlist DB.init "bob" 7 "Seven" none none).2
      "bob" 7 = true := by decide
  exact ⟨hp, h.1.mpr hp, (h.2.1 hp).2.2⟩

/-- C3: after any sequence of operations from the empty store, every
(username, movie_id) pair has at most one stored watchlist row; a pair
switches from absent to present only through an add of that pair, switches
from present to absent only through a remove of that pair, and an
operation that reports failure leaves the database unchanged. -/
theorem watchlist_state_machine (ops : List Op) (db : DB) (op : Op)
    (u : String) (m : Int) :
    pairCount (runOps ops) u m ≤ 1
  ∧ (present db u m = false → present (applyOp db op) u m = true →
        ∃ t y p, op = Op.add u m t y p)
  ∧ (present db u m = true → present (applyOp db op) u m = false →
        op = Op.rem u m)
  ∧ (opResult db op = false → applyOp db op = db) :=
  ⟨pairCount_runOps_le ops u m,
   absent_to_present db op u m,
   present_to_absent db op u m,
   opResult_false_state_eq db op⟩

theorem watchlist_state_machine_witness :
    pairCount (runOps [Op.add "alice" 1 "a" none none]) "alice" 1 ≤ 1 ∧
    opResult DB.init (Op.rem "alice" 1) = false ∧
    applyOp DB.init (Op.rem "alice" 1) = DB.init :=
  ⟨(watchlist_state_machine [Op.add "alice" 1 "a" none none] DB.init
      (Op.rem "alice" 1) "alice" 1).1,
   rfl,
   (watchlist_state_machine [] DB.init (Op.rem "alice" 1) "alice" 1).2.2.2 rfl⟩

/-- C4: get_watchlist returns the user's rows sorted by descending
surrogate id (the sorted list is pairwise descending and a permutation of
the user's stored rows), returns the empty list exactly when the user has
no rows, and after adding movie_ids 1, 2, 3 for a user it yields them in
the order [3, 2, 1]. -/
theorem get_watchlist_spec (db : DB) (u : String) :
    (sortDescById (userRows db u)).Pairwise rowGe
  ∧ (sortDescById (userRows db u)).Perm (userRows db u)
  ∧ (get_watchlist db u = [] ↔ userRows db u = [])
  ∧ (get_watchlist (runOps
      [Op.add "u" 1 "a" none none, Op.add "u" 2 "b" none none,
       Op.add "u" 3 "c" none none]) "u").map (fun e => e.1)
      = [3, 2, 1] := by
  refine ⟨sortDescById_pairwise _, sortDescById_perm _, ?_, ?_⟩
  · unfold get_watchlist
    rw [List.map_eq_nil_iff]
    constructor
    · intro h
      have hlen := (sortDescById_perm (userRows db u)).length_eq
      rw [h] at hlen
      exact List.length_eq_zero.mp hlen.symm
    · intro h
      rw [h]
      rfl
  · decide

/-- C5: register_user returns true and appends one User record when the
username is not yet taken; when it is taken it returns false and leaves
the database unchanged; registering the same username twice returns true
then false and leaves exactly one record with that username. -/
theorem register_user_spec (db : DB) (u p : String) :
    (userExists db u = false →
        (register_user db u p).1 = true ∧
        (register_user db u p).2.users = db.users ++ [(u, p)])
  ∧ (userExists db u = true →
        (register_user db u p).1 = false ∧
        (register_user db u p).2 = db)
  ∧ (userExists db u = false →
        (register_user db u p).1 = true ∧
        (register_user (register_user db u p).2 u p).1 = false ∧
        ((register_user (register_user db u p).2 u p).2.users.countP
            (fun r => r.1 == u)) = 1) := by
  refine ⟨?_, ?_, ?_⟩
  · intro h
    rw [register_state_absent db u p (by simp [h])]
    exact ⟨rfl, rfl⟩
  · intro h
    rw [register_state_present db u p h]
    exact ⟨rfl, rfl⟩
  · intro h
    have h' : ¬ userExists db u = true := by simp [h]
    have hdb1 : (register_user db u p).2
        = { db with users := db.users ++ [(u, p)] } := by
      rw [register_state_absent db u p h']
    have hu1 : userExists { db with users := db.users ++ [(u, p)] } u = true := by
      unfold userExists
      rw [show ({ db with users := db.users ++ [(u, p)] } : DB).users
            = db.users ++ [(u, p)] from rfl]
      rw [List.any_append]
      simp
    refine ⟨by rw [register_state_absent db u p h'], ?_, ?_⟩
    · rw [hdb1, register_state_present _ u p hu1]
    · rw [hdb1, register_state_present _ u p hu1]
      show (db.users ++ [(u, p)]).countP (fun r => r.1 == u) = 1
      rw [List.countP_append]
      have h0 : db.users.countP (fun r => r.1 == u) = 0 := by
        unfold userExists at h
        rw [List.any_eq_false] at h
        exact List.countP_eq_zero.mpr h
      rw [h0]
      simp [List.countP_cons]

theorem register_user_spec_witness :
    userExists DB.init "carol" = false ∧
    (register_user DB.init "carol" "pw").1 = true ∧
    (register_user (register_user DB.init "carol" "pw").2 "carol" "pw").1 = false ∧
    ((register_user (register_user DB.init "carol" "pw").2 "carol" "pw").2.users.countP
        (fun r => r.1 == "carol")) = 1 :=
  ⟨rfl, (register_user_spec DB.init "carol" "pw").2.2 rfl⟩

/-- C6: authenticate_user returns true exactly when a stored user record
matches both the supplied username and password; it returns false both
when the username exists with a different password and when the username
does not exist at all. -/
theorem authenticate_user_spec (db : DB) (u p : String) :
    (authenticate_user db u p = true ↔ (u, p) ∈ db.users)
  ∧ (userExists db u = false → authenticate_user db u p = false)
  ∧ ((∀ q : String, (u, q) ∈ db.users → q ≠ p) →
        authenticate_user db u p = false) := by
  have hiff : authenticate_user db u p = true ↔ (u, p) ∈ db.users := by
    unfold authenticate_user
    rw [List.any_eq_true]
    constructor
    · rintro ⟨x, hx, hpx⟩
      rw [Bool.and_eq_true] at hpx
      obtain ⟨h1, h2⟩ := hpx
      rw [beq_iff_eq] at h1 h2
      have hx2 : x = (u, p) := Prod.ext_iff.mpr ⟨h1, h2⟩
      rwa [hx2] at hx
    · intro hmem
      exact ⟨(u, p), hmem, by simp⟩
  refine ⟨hiff, ?_, ?_⟩
  · intro h
    unfold userExists at h
    rw [List.any_eq_false] at h
    unfold authenticate_user
    rw [List.any_eq_false]
    intro x hx hpx
    rw [Bool.and_eq_true] at hpx
    exact h x hx hpx.1
  · intro hq
    cases hA : authenticate_user db u p
    · rfl
    · exact absurd rfl (hq p (hiff.mp hA))

theorem authenticate_user_spec_witness :
    userExists (register_user DB.init "bob" "secret").2 "alice" = false ∧
    authenticate_user (register_user DB.init "bob" "secret").2 "alice" "pw" = false ∧
    authenticate_user (register_user DB.init "bob" "secret").2 "bob" "wrong" = false := by
  refine ⟨by decide, ?_, ?_⟩
  · exact (authenticate_user_spec _ "alice" "pw").2.1 (by decide)
  · refine (authenticate_user_spec _ "bob" "wrong").2.2 ?_
    intro q hq
    have hmem : ("bob", q) ∈ [("bob", "secret")] := hq
    rw [List.mem_singleton] at hmem
    have hqv : q = "secret" := (Prod.ext_iff.mp hmem).2
    rw [hqv]
    decide

/-- C7 counterexample: register_user performs no validation of the
username, so calling it with the empty string on the fresh database
succeeds and creates a User record with the empty username, refuting the
claim that an empty username cannot create a record. -/
theorem register_empty_username_counterexample :
    (register_user DB.init "" "pw").1 = true ∧
    (register_user DB.init "" "pw").2.users = [("", "pw")] :=
  ⟨rfl, rfl⟩

/-- C7 amended: register_user does not enforce non-emptiness of the
username; the empty string behaves like any other username, succeeding and
creating a record exactly when no user with the empty username exists, and
failing without change when one does. -/
theorem register_empty_username_amended (db : DB) (p : String) :
    (userExists db "" = false →
        (register_user db "" p).1 = true ∧
        (register_user db "" p).2.users = db.users ++ [("", p)])
  ∧ (userExists db "" = true →
        (register_user db "" p).1 = false ∧
        (register_user db "" p).2 = db) := by
  constructor
  · intro h
    rw [register_state_absent db "" p (by simp [h])]
    exact ⟨rfl, rfl⟩
  · intro h
    rw [register_state_present db "" p h]
    exact ⟨rfl, rfl⟩

theorem register_empty_username_amended_witness :
    userExists DB.init "" = false ∧
    (register_user DB.init "" "pw2").1 = true ∧
    (register_user DB.init "" "pw2").2.users = DB.init.users ++ [("", "pw2")] :=
  ⟨rfl, (register_empty_username_amended DB.init "pw2").1 rfl⟩

/-- A concrete cached recommendation batch for exercising the Sign Out
handler. -/
def sampleMovie : Movie :=
  { id := 603, title := "The Matrix", release_date := some "1999-03-30",
    popularity := some 80, overview := some "A hacker learns the truth." }

/-- A signed-in session holding a cached recommendation batch, the input
on which the Sign Out handler fails to discard the cache. -/
def sampleSession : SessionState :=
  { logged_in := true, username := some "alice", show_login := false,
    show_register := false, show_watchlist := false,
    similar_movies := [sampleMovie], posters := [some "p.jpg"],
    names := ["The Matrix"], descriptions := ["A hacker learns the truth."] }

/-- C8: evaluating the Sign Out handler on a session state holding cached
recommendation results shows it clears logged_in and username but retains
all four cached recommendation fields, contradicting the claim that they
are discarded on sign-out. -/
theorem signOut_keeps_recommendation_cache :
    (signOut sampleSession).logged_in = false ∧
    (signOut sampleSession).username = none ∧
    (signOut sampleSession).similar_movies = sampleSession.similar_movies ∧
    (signOut sampleSession).posters = sampleSession.posters ∧
    (signOut sampleSession).names = sampleSession.names ∧
    (signOut sampleSession).descriptions = sampleSession.descriptions ∧
    sampleSession.similar_movies ≠ [] := by
  refine ⟨rfl, rfl, rfl, rfl, rfl, rfl, ?_⟩
  decide

/-- C9 counterexample: when requests.get raises a transport-level
exception, search_movies propagates it to the caller instead of returning
the empty list, refuting the claim that no exception escapes and that any
transport failure yields an empty sequence. -/
theorem search_movies_exn_counterexample :
    search_movies (HttpOutcome.exn "ConnectionError")
      = Except.error "ConnectionError" ∧
    search_movies (HttpOutcome.exn "ConnectionError")
      ≠ Except.ok ([] : List Movie) :=
  ⟨rfl, fun h => Except.noConfusion h⟩

/-- C9 amended: search_movies returns the empty list on any delivered
non-200 response (including a 404 not-found) and never yields an error for
a delivered response, but a transport-level exception raised by
requests.get propagates to the caller uncaught. -/
theorem search_movies_amended (resp : HttpResponse) (e : String) :
    (resp.status_code ≠ 200 →
        search_movies (HttpOutcome.ok resp) = Except.ok ([] : List Movie))
  ∧ (∃ l : List Movie, search_movies (HttpOutcome.ok resp) = Except.ok l)
  ∧ search_movies (HttpOutcome.exn e) = Except.error e := by
  refine ⟨?_, ?_, rfl⟩
  · intro h
    show (if (resp.status_code == 200) = true
            then Except.ok (sortByPopDesc resp.results)
            else Except.ok []) = Except.ok ([] : List Movie)
    rw [if_neg (by simpa using h)]
  · show ∃ l : List Movie,
      (if (resp.status_code == 200) = true
          then Except.ok (sortByPopDesc resp.results)
          else Except.ok []) = Except.ok l
    by_cases h : (resp.status_code == 200) = true
    · rw [if_pos h]
      exact ⟨_, rfl⟩
    · rw [if_neg h]
      exact ⟨[], rfl⟩

theorem search_movies_amended_witness :
    (404 : Nat) ≠ 200 ∧
    search_movies (HttpOutcome.ok { status_code := 404, results := [] })
      = Except.ok ([] : List Movie) :=
  ⟨by decide,
   (search_movies_amended { status_code := 404, results := [] } "e").1 (by decide)⟩

/-- C10: add_to_watchlist never consults the users relation, because the
declared foreign key is not enforced at runtime; for a username with no
user record and an absent (username, movie_id) pair, it still returns true
and creates the watchlist row. -/
theorem add_ignores_missing_user (db : DB) (u : String) (m : Int)
    (t : String) (y p : Option String) (hu : userExists db u = false)
    (hm : present db u m = false) :
    (add_to_watchlist db u m t y p).1 = true ∧
    (add_to_watchlist db u m t y p).2.watchlist
      = db.watchlist ++ [⟨db.nextId, u, m, t, y, p⟩] ∧
    (add_to_watchlist db u m t y p).2.users = db.users := by
  rw [add_state_absent (show ¬ present db u m = true by simp [hm])]
  exact ⟨rfl, rfl, rfl⟩

theorem add_ignores_missing_user_witness :
    userExists DB.init "ghost" = false ∧
    present DB.init "ghost" 42 = false ∧
    ((add_to_watchlist DB.init "ghost" 42 "t" none none).1 = true ∧
     (add_to_watchlist DB.init "ghost" 42 "t" none none).2.watchlist
       = DB.init.watchlist ++ [⟨DB.init.nextId, "ghost", 42, "t", none, none⟩] ∧
     (add_to_watchlist DB.init "ghost" 42 "t" none none).2.users = DB.init.users) :=
  ⟨rfl, rfl, add_ignores_missing_user DB.init "ghost" 42 "t" none none rfl rfl⟩
